import Mathlib

/-!
Verification of the Strava activity-sync service (`src/index.js`).

The JavaScript source is shallowly embedded here.  JS numbers are modelled
as rationals (`ℚ`), JS integer ids and second counts as `Nat`/`Int`,
nullable/optional JS values as `Option`, and JS falsiness of strings and
numbers by explicit helpers (`strTruthy`, `natTruthy`).  Network and
database effects are modelled by explicit oracles: page fetches are a
function from page number to rows, date parsing (`new Date(...).getTime()`)
is a `String → Option Int` oracle (`none` models `NaN`), and a fallible
database write is an `Except`-valued step.  Control flow (loops, early
`continue`, absence of `try`/`catch` inside the batch loops) is translated
directly from the source.
-/

namespace StravaBot

/-- JS string falsiness: `undefined`/`null` and `""` are falsy. -/
def strTruthy : Option String → Option String
  | none => none
  | some s => if s = "" then none else some s

/-- JS number-as-id falsiness: `undefined`/`null` and `0` are falsy
(models `act.id ? ... : null`). -/
def natTruthy : Option Nat → Option Nat
  | none => none
  | some n => if n = 0 then none else some n

/-- JS `a || d` on an optional string, with `""` falsy. -/
def strOrD (o : Option String) (d : String) : String :=
  match strTruthy o with
  | some s => s
  | none => d

/-- JS `String(n)` for a natural id. -/
def natStr (n : Nat) : String := toString n

/-- JS `String(x).padStart(2, "0")` for the seconds component. -/
def pad2 (n : Int) : String :=
  if 0 ≤ n ∧ n < 10 then "0" ++ toString n else toString n

/-- JS truncation toward zero (used by the `%` operator on numbers). -/
def jsTrunc (q : ℚ) : Int :=
  if 0 ≤ q then ⌊q⌋ else -⌊-q⌋

/-- JS `x % y` on numbers: `x - y * trunc (x / y)`. -/
def jsFmod (x y : ℚ) : ℚ := x - y * (jsTrunc (x / y) : ℚ)

/-- JS `Math.round`: floor of `x + 1/2`. -/
def jsRound (q : ℚ) : Int := ⌊q + (1 : ℚ) / 2⌋

/-- Function `calcularPace(segundos, km)` from `src/index.js` lines 82-88:
guard on falsy seconds or non-positive distance, else
`Math.floor(paceSeconds/60)` minutes and `Math.round(paceSeconds % 60)`
seconds, zero-padded to two digits. -/
def calcularPace (segundos km : ℚ) : String :=
  if segundos = 0 ∨ km ≤ 0 then "0:00"
  else
    let paceSeconds := segundos / km
    let mins : Int := ⌊paceSeconds / 60⌋
    let secs : Int := jsRound (jsFmod paceSeconds 60)
    toString mins ++ ":" ++ pad2 secs

/-- Replace the first occurrence of character `c` by the string `r`
(JS `String.prototype.replace` with a string pattern replaces only the
first occurrence). -/
def replaceFirstChar (c : Char) (r : List Char) : List Char → List Char
  | [] => []
  | x :: xs => if x = c then r ++ xs else x :: replaceFirstChar c r xs

/-- Function `toMySQLDatetime` from `src/index.js` lines 72-75:
`String(isoLike).replace("T", " ").replace("Z", "").slice(0, 19)`. -/
def toMySQLDatetime (isoLike : Option String) : Option String :=
  match strTruthy isoLike with
  | none => none
  | some s =>
      some (String.mk ((replaceFirstChar 'Z' []
        (replaceFirstChar 'T' [' '] s.data)).take 19))

/-- Function `toDateOnly` from `src/index.js` lines 77-80: `slice(0, 10)`. -/
def toDateOnly (isoLike : Option String) : Option String :=
  match strTruthy isoLike with
  | none => none
  | some s => some (String.mk (s.data.take 10))

/-- JS `x.toFixed(2)` for the non-negative distances that occur here:
round to 2 decimals and render with exactly two fraction digits. -/
def toFixed2 (q : ℚ) : String :=
  let n : Int := ⌊q * 100 + (1 : ℚ) / 2⌋
  let whole : Int := n / 100
  let frac : Int := n % 100
  toString whole ++ "." ++ pad2 frac

/-- An athlete object inside a Strava payload (`act.athlete`,
`refreshed.athlete`): every field may be absent. -/
structure RawAthlete where
  id : Option Nat
  firstname : Option String
  lastname : Option String
deriving Repr, DecidableEq

/-- A raw activity payload as consumed by the two loops of
`/atualizar-clube`. -/
structure RawActivity where
  id : Option Nat
  type : Option String
  name : Option String
  start_date_local : Option String
  start_date : Option String
  distance : Option ℚ
  moving_time : Option Nat
  total_elevation_gain : Option ℚ
  athlete : Option RawAthlete
deriving Repr, DecidableEq

/-- A row of the `strava_activities` table. -/
structure ActivityRow where
  unique_key : String
  activity_id : Option String
  athlete_id : Option String
  source : String
  activity_name : String
  activity_date : Option String
  activity_date_only : Option String
  distance_km : ℚ
  moving_time_seconds : Nat
  elevation_meters : ℚ
  pace_display : String
  athlete_name : String
  full_name : String
  athlete_photo : String
deriving Repr, DecidableEq

/-- A row of the `strava_athletes` credential table. -/
structure AthleteRow where
  athlete_id : Nat
  full_name : Option String
  access_token : Option String
  refresh_token : Option String
  expires_at : Option Int
deriving Repr, DecidableEq

/-- A successful response of the provider token endpoint
(`refreshAccessToken`): `access_token`, `refresh_token`, `expires_at`,
optional `athlete`. -/
structure RefreshedTokens where
  access_token : String
  refresh_token : String
  expires_at : Int
  athlete : Option RawAthlete
deriving Repr, DecidableEq

/-- Ambient configuration of a trigger pass: the `DATA_INICIO` cutoff as
an epoch instant, and the JS date parser `d => new Date(d).getTime()`
as an oracle (`none` models `NaN`). -/
structure Config where
  dataInicio : Int
  parseDate : String → Option Int

/-- JS `["Run", "VirtualRun", "TrailRun"].includes(tipo)`. -/
def isRunType (tipo : String) : Bool :=
  tipo = "Run" || tipo = "VirtualRun" || tipo = "TrailRun"

/-- Club loop type filter (line 335): skip when `tipo` is truthy and not a
running variant; an empty type passes through. -/
def clubTypeSkip (act : RawActivity) : Bool :=
  !(act.type.getD "" = "") && !(isRunType (act.type.getD ""))

/-- Athlete loop type filter (line 394): skip unless `tipo` is a running
variant; an empty type is skipped. -/
def athleteTypeSkip (act : RawActivity) : Bool :=
  !(isRunType (act.type.getD ""))

/-- JS `act.start_date_local || act.start_date` (lines 337 and 396). -/
def dataRawOf (act : RawActivity) : Option String :=
  match strTruthy act.start_date_local with
  | some s => some s
  | none => strTruthy act.start_date

/-- JS `Number.isFinite(dt.getTime()) && dt < DATA_INICIO`
(lines 343-344 and 399-400). -/
def beforeCutoff (cfg : Config) (dataRaw : String) : Bool :=
  match cfg.parseDate dataRaw with
  | some t => decide (t < cfg.dataInicio)
  | none => false

/-- JS `act.id ? String(act.id) : null` (lines 351 and 407). -/
def activityIdOf (act : RawActivity) : Option String :=
  (natTruthy act.id).map natStr

/-- JS `act.athlete?.id ? String(act.athlete.id) : null` (line 350). -/
def clubAthleteId (act : RawActivity) : Option String :=
  (natTruthy (act.athlete.bind RawAthlete.id)).map natStr

/-- The club-loop dedup key (lines 353-355): `club|<id>` when the activity
id is present, else `club|<athleteId or x>|<raw date>|<km, 2 decimals>|<s>`. -/
def clubUniqueKey (athleteId : Option String) (activityId : Option String)
    (dataRaw : String) (distanceKm : ℚ) (movingTime : Nat) : String :=
  match activityId with
  | some i => "club|" ++ i
  | none =>
      "club|" ++ athleteId.getD "x" ++ "|" ++ dataRaw ++ "|"
        ++ toFixed2 distanceKm ++ "|" ++ toString movingTime

/-- The athlete-loop dedup key (lines 409-411). -/
def athleteUniqueKey (athleteId : String) (activityId : Option String)
    (dataRaw : String) (distanceKm : ℚ) (movingTime : Nat) : String :=
  match activityId with
  | some i => "athlete|" ++ athleteId ++ "|" ++ i
  | none =>
      "athlete|" ++ athleteId ++ "|" ++ dataRaw ++ "|"
        ++ toFixed2 distanceKm ++ "|" ++ toString movingTime

/-- The row the club loop builds for one activity (lines 357-372). -/
def clubRow (act : RawActivity) (dataRaw : String) : ActivityRow :=
  let distanceKm : ℚ := act.distance.getD 0 / 1000
  let movingTime : Nat := act.moving_time.getD 0
  let athleteId : Option String := clubAthleteId act
  let activityId : Option String := activityIdOf act
  { unique_key := clubUniqueKey athleteId activityId dataRaw distanceKm movingTime
    activity_id := activityId
    athlete_id := athleteId
    source := "club"
    activity_name := act.name.getD ""
    activity_date := toMySQLDatetime (some dataRaw)
    activity_date_only := toDateOnly (some dataRaw)
    distance_km := distanceKm
    moving_time_seconds := movingTime
    elevation_meters := act.total_elevation_gain.getD 0
    pace_display := calcularPace (movingTime : ℚ) distanceKm
    athlete_name := match athleteId with
      | some i => "athlete_" ++ i
      | none => "athlete_desconhecido"
    full_name := match athleteId with
      | some i => "athlete_" ++ i
      | none => "athlete_desconhecido"
    athlete_photo := "" }

/-- One club-loop iteration (lines 333-372): type filter, date-presence
check (`semData` skip), cutoff check, then the built row; `none` means the
activity is skipped (`continue`). -/
def processClubAct (cfg : Config) (act : RawActivity) : Option ActivityRow :=
  if clubTypeSkip act then none
  else
    match dataRawOf act with
    | none => none
    | some dataRaw =>
        if beforeCutoff cfg dataRaw then none
        else some (clubRow act dataRaw)

/-- JS `act.athlete?.id ? String(act.athlete.id) : String(athlete.athlete_id)`
(line 406). -/
def athleteIdOf (ath : AthleteRow) (act : RawActivity) : String :=
  match natTruthy (act.athlete.bind RawAthlete.id) with
  | some n => natStr n
  | none => natStr ath.athlete_id

/-- The row the athlete loop builds for one activity (lines 413-428). -/
def athleteActRow (ath : AthleteRow) (act : RawActivity) (dataRaw : String) :
    ActivityRow :=
  let distanceKm : ℚ := act.distance.getD 0 / 1000
  let movingTime : Nat := act.moving_time.getD 0
  let athleteId : String := athleteIdOf ath act
  let activityId : Option String := activityIdOf act
  { unique_key := athleteUniqueKey athleteId activityId dataRaw distanceKm movingTime
    activity_id := activityId
    athlete_id := some athleteId
    source := "athlete"
    activity_name := act.name.getD ""
    activity_date := toMySQLDatetime (some dataRaw)
    activity_date_only := toDateOnly (some dataRaw)
    distance_km := distanceKm
    moving_time_seconds := movingTime
    elevation_meters := act.total_elevation_gain.getD 0
    pace_display := calcularPace (movingTime : ℚ) distanceKm
    athlete_name := strOrD ath.full_name ("athlete_" ++ athleteId)
    full_name := strOrD ath.full_name ("athlete_" ++ athleteId)
    athlete_photo := "" }

/-- One athlete-loop iteration (lines 392-428). -/
def processAthleteAct (cfg : Config) (ath : AthleteRow) (act : RawActivity) :
    Option ActivityRow :=
  if athleteTypeSkip act then none
  else
    match dataRawOf act with
    | none => none
    | some dataRaw =>
        if beforeCutoff cfg dataRaw then none
        else some (athleteActRow ath act dataRaw)

/-- The `ON DUPLICATE KEY UPDATE` clause of `upsertActivity`
(lines 208-218): the display fields are overwritten from the incoming row;
`unique_key`, `activity_id`, `athlete_id` and `source` are kept. -/
def updateDisplayFields (old new : ActivityRow) : ActivityRow :=
  { old with
    activity_name := new.activity_name
    activity_date := new.activity_date
    activity_date_only := new.activity_date_only
    distance_km := new.distance_km
    moving_time_seconds := new.moving_time_seconds
    elevation_meters := new.elevation_meters
    pace_display := new.pace_display
    athlete_name := new.athlete_name
    full_name := new.full_name
    athlete_photo := new.athlete_photo }

/-- Function `upsertActivity` (lines 196-240) against the `strava_activities` table,
whose unique index is `unique_key`: `INSERT ... ON DUPLICATE KEY UPDATE`
updates the matching row in place when the key is present and appends a new
row otherwise. -/
def upsertActivity (table : List ActivityRow) (row : ActivityRow) :
    List ActivityRow :=
  if table.any (fun r => r.unique_key == row.unique_key) then
    table.map (fun r =>
      if r.unique_key == row.unique_key then updateDisplayFields r row else r)
  else table ++ [row]

/-- Function `upsertAthleteToken` (lines 148-166) against `strava_athletes`, keyed by
`athlete_id`: on conflict it overwrites `full_name`, `access_token`,
`refresh_token` and `expires_at`. -/
def upsertAthleteToken (table : List AthleteRow) (a : AthleteRow) :
    List AthleteRow :=
  if table.any (fun r => r.athlete_id == a.athlete_id) then
    table.map (fun r =>
      if r.athlete_id == a.athlete_id then
        { r with
          full_name := a.full_name
          access_token := a.access_token
          refresh_token := a.refresh_token
          expires_at := a.expires_at }
      else r)
  else table ++ [a]

/-- JS falsiness of the stored access token (`!athleteRow.access_token`):
`null` or the empty string. -/
def tokenFalsy : Option String → Bool
  | none => true
  | some s => s == ""

/-- JS `[firstname, lastname].filter(Boolean).join(" ").trim()` rendered as an
optional string (`none` when the result is falsy, i.e. empty). -/
def fullNameFromAthlete (ath : Option RawAthlete) : Option String :=
  let parts : List String :=
    match ath with
    | none => []
    | some a =>
        (([a.firstname, a.lastname].filterMap id).filter (fun s => s ≠ ""))
  let s := (String.intercalate " " parts).trim
  if s = "" then none else some s

/-- The credential record persisted after a successful refresh
(lines 181-190): id from `refreshed.athlete?.id || athleteRow.athlete_id`,
name from the joined athlete name with fallbacks, and the fresh tokens. -/
def newTokenRecord (refreshed : RefreshedTokens) (row : AthleteRow) :
    AthleteRow :=
  { athlete_id :=
      match natTruthy (refreshed.athlete.bind RawAthlete.id) with
      | some n => n
      | none => row.athlete_id
    full_name := some (strOrD (fullNameFromAthlete refreshed.athlete)
      (strOrD row.full_name ("athlete_" ++ toString row.athlete_id)))
    access_token := some refreshed.access_token
    refresh_token := some refreshed.refresh_token
    expires_at := some refreshed.expires_at }

/-- Function `getValidAthleteAccessToken` (lines 175-194).  `now` is
`Math.floor(Date.now() / 1000)`; `refreshed` is the provider response the
refresh call would return.  The stored expiry is read as
`Number(athleteRow.expires_at || 0)`.  Returns the token to use and the
resulting credential table. -/
def getValidAthleteAccessToken (now : Int) (refreshed : RefreshedTokens)
    (table : List AthleteRow) (row : AthleteRow) :
    String × List AthleteRow :=
  let expiresAt : Int := row.expires_at.getD 0
  if tokenFalsy row.access_token || decide (expiresAt ≤ now + 60) then
    (refreshed.access_token,
      upsertAthleteToken table (newTokenRecord refreshed row))
  else
    (row.access_token.getD "", table)

/-- The shared pagination loop of `fetchClubActivities` and
`fetchAthleteActivities` (lines 114-146): fetch page `page`, accumulate the
batch (`resp.data || []`), stop when a batch is shorter than `perPage` or
the page budget is exhausted. -/
def fetchLoop (pageFn : Nat → List RawActivity) (perPage : Nat) :
    Nat → Nat → List RawActivity
  | _, 0 => []
  | page, fuel + 1 =>
      let batch := pageFn page
      if batch.length < perPage then batch
      else batch ++ fetchLoop pageFn perPage (page + 1) fuel

/-- Function `fetchClubActivities` as called on line 320: `perPage = 50`,
`maxPages = 3`, pages from 1. -/
def fetchClubActivities (pageFn : Nat → List RawActivity) : List RawActivity :=
  fetchLoop pageFn 50 1 3

/-- Function `fetchAthleteActivities` as called on line 390: `perPage = 200`,
`maxPages = 5`, pages from 1. -/
def fetchAthleteActivities (pageFn : Nat → List RawActivity) : List RawActivity :=
  fetchLoop pageFn 200 1 5

/-- The club batch loop (lines 333-378).  `fails` is the database oracle:
`true` means the `await upsertActivity(...)` call throws for that row.  The
loop body has no `try`/`catch`, so a throw propagates immediately
(`Except.error`) and ends the whole pass. -/
def runClubLoop (cfg : Config) (fails : ActivityRow → Bool) :
    List RawActivity → List ActivityRow → Except String (List ActivityRow)
  | [], table => Except.ok table
  | act :: rest, table =>
      match processClubAct cfg act with
      | none => runClubLoop cfg fails rest table
      | some row =>
          if fails row then Except.error "db error"
          else runClubLoop cfg fails rest (upsertActivity table row)

/-- The per-athlete activity loop (lines 392-434), same failure model. -/
def runAthleteActsLoop (cfg : Config) (ath : AthleteRow)
    (fails : ActivityRow → Bool) :
    List RawActivity → List ActivityRow → Except String (List ActivityRow)
  | [], table => Except.ok table
  | act :: rest, table =>
      match processAthleteAct cfg ath act with
      | none => runAthleteActsLoop cfg ath fails rest table
      | some row =>
          if fails row then Except.error "db error"
          else runAthleteActsLoop cfg ath fails rest (upsertActivity table row)

/-- The outer athletes loop (lines 388-435).  `tokenOf` models
`getValidAthleteAccessToken` together with its HTTP refresh call
(`Except.error` = provider HTTP error thrown by axios), `fetchOf` models
`fetchAthleteActivities` for a given token.  There is no `try`/`catch`
around the loop body, so any error ends the loop for all remaining
athletes. -/
def runAthletesLoop (cfg : Config) (tokenOf : AthleteRow → Except String String)
    (fetchOf : String → List RawActivity) (fails : ActivityRow → Bool) :
    List AthleteRow → List ActivityRow → Except String (List ActivityRow)
  | [], table => Except.ok table
  | ath :: rest, table =>
      match tokenOf ath with
      | Except.error e => Except.error e
      | Except.ok tok =>
          match runAthleteActsLoop cfg ath fails (fetchOf tok) table with
          | Except.error e => Except.error e
          | Except.ok table2 => runAthletesLoop cfg tokenOf fetchOf fails rest table2

/-! Concrete fixtures used by witnesses and counterexamples. -/

/-- A configuration whose date oracle parses every string to epoch 5,
with cutoff 0: fetched dates lie after the cutoff. -/
def cfgPass : Config := { dataInicio := 0, parseDate := fun _ => some 5 }

/-- A configuration whose date oracle parses every string to epoch -5,
with cutoff 0: fetched dates lie strictly before the cutoff. -/
def cfgOld : Config := { dataInicio := 0, parseDate := fun _ => some (-5) }

/-- A run activity for which the provider withheld both the id and the
date (as the privacy-capped club feed does). -/
def actNoIdNoDate : RawActivity :=
  { id := none, type := some "Run", name := some "Morning Run"
    start_date_local := none, start_date := none
    distance := some 5000, moving_time := some 1500
    total_elevation_gain := some 12, athlete := none }

/-- A well-formed run activity with a real id and date. -/
def actWithId : RawActivity :=
  { id := some 123, type := some "Run", name := some "Long Run"
    start_date_local := some "2026-03-05T10:00:00Z", start_date := none
    distance := some 10000, moving_time := some 3000
    total_elevation_gain := some 50
    athlete := some { id := some 77, firstname := some "Ana", lastname := some "Silva" } }

/-- Like `actWithId` but marked (moving time 1111) so the database oracle
of the failure scenarios can single it out. -/
def actFailing : RawActivity :=
  { actWithId with id := some 124, moving_time := some 1111 }

/-- A third well-formed activity, processed after the failing one. -/
def actLater : RawActivity :=
  { actWithId with id := some 125 }

/-- Database oracle that throws exactly on the marked row. -/
def failsOnMarked : ActivityRow → Bool := fun r => r.moving_time_seconds == 1111

/-- Database oracle that never throws. -/
def failsNever : ActivityRow → Bool := fun _ => false

/-- A stored athlete credential row with a valid token. -/
def athFirst : AthleteRow :=
  { athlete_id := 1, full_name := some "Ana Silva"
    access_token := some "tok1", refresh_token := some "r1"
    expires_at := some 99999 }

/-- A second stored athlete credential row. -/
def athSecond : AthleteRow :=
  { athlete_id := 2, full_name := some "Bia Costa"
    access_token := some "tok2", refresh_token := some "r2"
    expires_at := some 99999 }

/-- Token oracle for which the provider rejects the first athlete's
refresh with an HTTP error and serves the second athlete normally. -/
def tokenFailsFirst : AthleteRow → Except String String := fun ath =>
  if ath.athlete_id == 1 then Except.error "http 401" else Except.ok "tok"

/-- Feed oracle returning one well-formed activity for any token. -/
def fetchOne : String → List RawActivity := fun _ => [actWithId]

/-- A provider token response used in the refresh scenarios. -/
def refW : RefreshedTokens :=
  { access_token := "newtok", refresh_token := "newref", expires_at := 5000
    athlete := some { id := some 42, firstname := some "Ana", lastname := some "Silva" } }

/-- A stored credential row with no access token (forces a refresh). -/
def athNoToken : AthleteRow :=
  { athlete_id := 7, full_name := none, access_token := none
    refresh_token := some "r7", expires_at := some 99999 }

/-- A concrete activity row used to exercise the activity upsert. -/
def rowW : ActivityRow :=
  { unique_key := "club|123", activity_id := some "123", athlete_id := some "77"
    source := "club", activity_name := "Long Run"
    activity_date := some "2026-03-05 10:00:00"
    activity_date_only := some "2026-03-05"
    distance_km := 10, moving_time_seconds := 3000, elevation_meters := 50
    pace_display := "5:00", athlete_name := "athlete_77"
    full_name := "athlete_77", athlete_photo := "" }

/-- A page oracle that always returns an empty page. -/
def emptyPages : Nat → List RawActivity := fun _ => []

/-! Helper lemmas. -/

theorem updateDisplayFields_key (old new : ActivityRow) :
    (updateDisplayFields old new).unique_key = old.unique_key := rfl

theorem upsertActivity_map_key_of_mem (t : List ActivityRow) (r : ActivityRow)
    (h : t.any (fun x => x.unique_key == r.unique_key) = true) :
    (upsertActivity t r).map ActivityRow.unique_key
      = t.map ActivityRow.unique_key := by
  unfold upsertActivity
  rw [if_pos h, List.map_map]
  refine List.map_congr_left (fun x _ => ?_)
  by_cases hx : x.unique_key = r.unique_key
  · simp [hx, updateDisplayFields_key]
  · simp [hx]

theorem upsertActivity_absent (t : List ActivityRow) (r : ActivityRow)
    (h : t.any (fun x => x.unique_key == r.unique_key) = false) :
    upsertActivity t r = t ++ [r] := by
  unfold upsertActivity
  rw [if_neg]
  simp [h]

theorem countP_key_eq_count (t : List ActivityRow) (k : String) :
    t.countP (fun x => x.unique_key == k)
      = (t.map ActivityRow.unique_key).count k := by
  rw [List.count, List.countP_map]
  rfl

theorem key_mem_of_any (s : List ActivityRow) (k : String)
    (hs : s.any (fun x => x.unique_key == k) = true) :
    k ∈ s.map ActivityRow.unique_key := by
  rcases List.any_eq_true.mp hs with ⟨x, hx, hxk⟩
  exact List.mem_map.mpr ⟨x, hx, beq_iff_eq.mp hxk⟩

theorem any_of_key_mem (s : List ActivityRow) (k : String)
    (hk : k ∈ s.map ActivityRow.unique_key) :
    s.any (fun x => x.unique_key == k) = true := by
  rcases List.mem_map.mp hk with ⟨x, hx, hxk⟩
  exact List.any_eq_true.mpr ⟨x, hx, beq_iff_eq.mpr hxk⟩

/-- C2: upserting a row whose `unique_key` is already present updates in
place and never creates a second row for that key; on a table with
distinct keys, after an upsert the key set is still duplicate-free, the
upserted key occurs in exactly one row, and re-upserting any row with the
same key (e.g. a repeated run of the same fetch-and-upsert pass) leaves
the set of stored keys unchanged. -/
theorem upsertActivity_idempotent (t : List ActivityRow) (r : ActivityRow)
    (h : (t.map ActivityRow.unique_key).Nodup) :
    ((upsertActivity t r).map ActivityRow.unique_key).Nodup
    ∧ (upsertActivity t r).countP (fun x => x.unique_key == r.unique_key) = 1
    ∧ ∀ r' : ActivityRow, r'.unique_key = r.unique_key →
        (upsertActivity (upsertActivity t r) r').map ActivityRow.unique_key
          = (upsertActivity t r).map ActivityRow.unique_key := by
  by_cases hmem : t.any (fun x => x.unique_key == r.unique_key) = true
  · have hmap := upsertActivity_map_key_of_mem t r hmem
    refine ⟨by rw [hmap]; exact h, ?_, ?_⟩
    · rw [countP_key_eq_count, hmap]
      exact List.count_eq_one_of_mem h (key_mem_of_any t _ hmem)
    · intro r' hr'
      have hmem2 : (upsertActivity t r).any
          (fun x => x.unique_key == r'.unique_key) = true := by
        apply any_of_key_mem
        rw [hr', hmap]
        exact key_mem_of_any t _ hmem
      exact upsertActivity_map_key_of_mem _ r' hmem2
  · have hmem' : t.any (fun x => x.unique_key == r.unique_key) = false := by
      simpa using hmem
    have habs := upsertActivity_absent t r hmem'
    have hnotin : r.unique_key ∉ t.map ActivityRow.unique_key := by
      intro hk
      exact hmem (any_of_key_mem t _ hk)
    have hkeys : (upsertActivity t r).map ActivityRow.unique_key
        = t.map ActivityRow.unique_key ++ [r.unique_key] := by
      rw [habs]; simp
    refine ⟨?_, ?_, ?_⟩
    · rw [hkeys]
      exact List.nodup_append.mpr
        ⟨h, List.nodup_singleton _, by simpa using hnotin⟩
    · rw [habs, List.countP_append]
      have h0 : t.countP (fun x => x.unique_key == r.unique_key) = 0 := by
        apply List.countP_eq_zero.mpr
        intro a ha hc
        exact hmem (List.any_eq_true.mpr ⟨a, ha, hc⟩)
      simp [h0]
    · intro r' hr'
      have hmem2 : (upsertActivity t r).any
          (fun x => x.unique_key == r'.unique_key) = true := by
        rw [habs]
        exact List.any_eq_true.mpr ⟨r, by simp, by simp [hr']⟩
      exact upsertActivity_map_key_of_mem _ r' hmem2

theorem upsertActivity_idempotent_witness :
    (([] : List ActivityRow).map ActivityRow.unique_key).Nodup
    ∧ ((upsertActivity [] rowW).map ActivityRow.unique_key).Nodup
    ∧ (upsertActivity [] rowW).countP
        (fun x => x.unique_key == rowW.unique_key) = 1
    ∧ (upsertActivity (upsertActivity [] rowW) rowW).map ActivityRow.unique_key
        = (upsertActivity [] rowW).map ActivityRow.unique_key :=
  ⟨by simp,
    (upsertActivity_idempotent [] rowW (by simp)).1,
    (upsertActivity_idempotent [] rowW (by simp)).2.1,
    (upsertActivity_idempotent [] rowW (by simp)).2.2 rowW rfl⟩

theorem getValidAthleteAccessToken_eq (now : Int) (refreshed : RefreshedTokens)
    (table : List AthleteRow) (row : AthleteRow) :
    getValidAthleteAccessToken now refreshed table row =
      if tokenFalsy row.access_token
          || decide (row.expires_at.getD 0 ≤ now + 60) then
        (refreshed.access_token,
          upsertAthleteToken table (newTokenRecord refreshed row))
      else (row.access_token.getD "", table) := rfl

/-- C3: `getValidAthleteAccessToken` refreshes exactly when the stored
access token is falsy or the stored expiry (read as 0 when missing) is at
most 60 seconds past `now`; a missing expiry therefore always refreshes,
and otherwise the stored token is returned with the credential table
untouched.  On refresh it returns the fresh token and persists the new
credential record (`newTokenRecord`, keyed by the refreshed athlete id
with fallback to the stored id) via `upsertAthleteToken`. -/
theorem getValidAthleteAccessToken_spec (now : Int) (refreshed : RefreshedTokens)
    (table : List AthleteRow) (row : AthleteRow) (hnow : 0 ≤ now) :
    ((tokenFalsy row.access_token = true ∨ row.expires_at.getD 0 ≤ now + 60) →
        getValidAthleteAccessToken now refreshed table row
          = (refreshed.access_token,
             upsertAthleteToken table (newTokenRecord refreshed row)))
    ∧ (row.expires_at = none →
        getValidAthleteAccessToken now refreshed table row
          = (refreshed.access_token,
             upsertAthleteToken table (newTokenRecord refreshed row)))
    ∧ (∀ s : String, row.access_token = some s → s ≠ "" →
        now + 60 < row.expires_at.getD 0 →
        getValidAthleteAccessToken now refreshed table row = (s, table)) := by
  refine ⟨?_, ?_, ?_⟩
  · intro hcond
    rw [getValidAthleteAccessToken_eq, if_pos]
    rcases hcond with h | h
    · simp [h]
    · simp [h]
  · intro hnone
    rw [getValidAthleteAccessToken_eq, if_pos]
    have : row.expires_at.getD 0 ≤ now + 60 := by
      rw [hnone]
      simpa using by omega
    simp [this]
  · intro s hs hne hgt
    rw [getValidAthleteAccessToken_eq, if_neg]
    · simp [hs]
    · have h1 : tokenFalsy row.access_token = false := by
        simp [tokenFalsy, hs, hne]
      have h2 : ¬ row.expires_at.getD 0 ≤ now + 60 := by omega
      simp [h1, h2]

theorem getValidAthleteAccessToken_spec_witness :
    (0 : Int) ≤ 1000
    ∧ getValidAthleteAccessToken 1000 refW [] athNoToken
        = (refW.access_token,
           upsertAthleteToken [] (newTokenRecord refW athNoToken)) :=
  ⟨by decide,
    (getValidAthleteAccessToken_spec 1000 refW [] athNoToken (by decide)).1
      (Or.inl rfl)⟩

/-- C4: a fetched activity whose raw date parses to an instant strictly
before the `DATA_INICIO` cutoff is skipped (`continue`) and never reaches
the upsert, in both the club loop and the athlete loop. -/
theorem cutoff_excludes (cfg : Config) (ath : AthleteRow) (act : RawActivity)
    (d : String) (t : Int)
    (hd : dataRawOf act = some d)
    (hp : cfg.parseDate d = some t)
    (ht : t < cfg.dataInicio) :
    processClubAct cfg act = none ∧ processAthleteAct cfg ath act = none := by
  have hbc : beforeCutoff cfg d = true := by
    unfold beforeCutoff
    rw [hp]
    simpa using ht
  constructor
  · unfold processClubAct
    by_cases hskip : clubTypeSkip act = true
    · simp [hskip]
    · simp only [Bool.not_eq_true] at hskip
      simp [hskip, hd, hbc]
  · unfold processAthleteAct
    by_cases hskip : athleteTypeSkip act = true
    · simp [hskip]
    · simp only [Bool.not_eq_true] at hskip
      simp [hskip, hd, hbc]

theorem cutoff_excludes_witness :
    dataRawOf actWithId = some "2026-03-05T10:00:00Z"
    ∧ cfgOld.parseDate "2026-03-05T10:00:00Z" = some (-5)
    ∧ (-5 : Int) < cfgOld.dataInicio
    ∧ processClubAct cfgOld actWithId = none
    ∧ processAthleteAct cfgOld athFirst actWithId = none := by
  refine ⟨rfl, rfl, by decide, ?_⟩
  exact cutoff_excludes cfgOld athFirst actWithId "2026-03-05T10:00:00Z" (-5)
    rfl rfl (by decide)

/-- C10: `calcularPace` guards against division by zero: whenever the
seconds argument is 0 (JS-falsy) or the distance is not positive, it
returns "0:00". -/
theorem calcularPace_guard (segundos km : ℚ) (h : segundos = 0 ∨ km ≤ 0) :
    calcularPace segundos km = "0:00" := by
  unfold calcularPace
  rw [if_pos h]

theorem calcularPace_guard_witness :
    ((0 : ℚ) = 0 ∨ (5 : ℚ) ≤ 0) ∧ calcularPace 0 5 = "0:00" :=
  ⟨Or.inl rfl, calcularPace_guard 0 5 (Or.inl rfl)⟩

/-- C1 counterexample: a run activity for which the provider withholds
both the id and the date is not stored at all — both loops skip it
(`continue`), rather than storing it under a hashed key. -/
theorem noDateActivity_not_stored :
    processClubAct cfgPass actNoIdNoDate = none
    ∧ processAthleteAct cfgPass athFirst actNoIdNoDate = none :=
  ⟨rfl, rfl⟩

/-- C1 (amended): for every stored activity the dedup key is derived from
the activity id when available (prefixed with the source tag, plus the
athlete id in the athlete loop), else it is the composite of athlete id,
raw date, distance rounded to 2 decimals and moving-time seconds; when the
provider withholds the date the activity is skipped, not stored. -/
theorem dedupKey_derivation (cfg : Config) (ath : AthleteRow)
    (act : RawActivity) :
    (∀ r : ActivityRow, processClubAct cfg act = some r →
      ∃ d, dataRawOf act = some d ∧
        r.unique_key = match activityIdOf act with
          | some i => "club|" ++ i
          | none =>
              "club|" ++ (clubAthleteId act).getD "x" ++ "|" ++ d ++ "|"
                ++ toFixed2 (act.distance.getD 0 / 1000) ++ "|"
                ++ toString (act.moving_time.getD 0))
    ∧ (∀ r : ActivityRow, processAthleteAct cfg ath act = some r →
      ∃ d, dataRawOf act = some d ∧
        r.unique_key = match activityIdOf act with
          | some i => "athlete|" ++ athleteIdOf ath act ++ "|" ++ i
          | none =>
              "athlete|" ++ athleteIdOf ath act ++ "|" ++ d ++ "|"
                ++ toFixed2 (act.distance.getD 0 / 1000) ++ "|"
                ++ toString (act.moving_time.getD 0))
    ∧ (dataRawOf act = none →
        processClubAct cfg act = none
        ∧ processAthleteAct cfg ath act = none) := by
  refine ⟨?_, ?_, ?_⟩
  · intro r hr
    unfold processClubAct at hr
    split at hr
    · exact absurd hr (by simp)
    · split at hr
      · exact absurd hr (by simp)
      · rename_i d hd
        split at hr
        · exact absurd hr (by simp)
        · refine ⟨d, hd, ?_⟩
          have hrow : r = clubRow act d := (Option.some.inj hr).symm
          rw [hrow]
          show clubUniqueKey (clubAthleteId act) (activityIdOf act) d
            (act.distance.getD 0 / 1000) (act.moving_time.getD 0) = _
          cases hid : activityIdOf act <;> simp [clubUniqueKey, hid]
  · intro r hr
    unfold processAthleteAct at hr
    split at hr
    · exact absurd hr (by simp)
    · split at hr
      · exact absurd hr (by simp)
      · rename_i d hd
        split at hr
        · exact absurd hr (by simp)
        · refine ⟨d, hd, ?_⟩
          have hrow : r = athleteActRow ath act d := (Option.some.inj hr).symm
          rw [hrow]
          show athleteUniqueKey (athleteIdOf ath act) (activityIdOf act) d
            (act.distance.getD 0 / 1000) (act.moving_time.getD 0) = _
          cases hid : activityIdOf act <;> simp [athleteUniqueKey, hid]
  · intro h0
    constructor
    · unfold processClubAct
      by_cases hskip : clubTypeSkip act = true
      · simp [hskip]
      · simp only [Bool.not_eq_true] at hskip
        simp [hskip, h0]
    · unfold processAthleteAct
      by_cases hskip : athleteTypeSkip act = true
      · simp [hskip]
      · simp only [Bool.not_eq_true] at hskip
        simp [hskip, h0]

theorem dedupKey_derivation_witness :
    processClubAct cfgPass actWithId
      = some (clubRow actWithId "2026-03-05T10:00:00Z")
    ∧ ∃ d, dataRawOf actWithId = some d ∧
        (clubRow actWithId "2026-03-05T10:00:00Z").unique_key
          = match activityIdOf actWithId with
            | some i => "club|" ++ i
            | none =>
                "club|" ++ (clubAthleteId actWithId).getD "x" ++ "|" ++ d ++ "|"
                  ++ toFixed2 (actWithId.distance.getD 0 / 1000) ++ "|"
                  ++ toString (actWithId.moving_time.getD 0) :=
  ⟨rfl,
    (dedupKey_derivation cfgPass athFirst actWithId).1
      (clubRow actWithId "2026-03-05T10:00:00Z") rfl⟩

/-- C5 counterexample: three processable club records, the second of which
makes the database throw on its upsert.  There is no `try`/`catch` inside
the batch loop, so the whole pass aborts with the error: the third record
is never processed and no result table is produced. -/
theorem clubLoop_failure_aborts_pass :
    runClubLoop cfgPass failsOnMarked [actWithId, actFailing, actLater] []
      = Except.error "db error" := rfl

/-- C5 (amended): a failure while upserting one record inside a batch loop
is not caught there: it propagates immediately, aborting the pass with an
error whatever the remaining records are (they are not processed), in both
the club loop and the athlete loop; only the route-level handler catches
it. -/
theorem perRecordFailure_aborts (cfg : Config) (fails : ActivityRow → Bool) :
    (∀ (act : RawActivity) (row : ActivityRow) (rest : List RawActivity)
        (table : List ActivityRow),
      processClubAct cfg act = some row → fails row = true →
      runClubLoop cfg fails (act :: rest) table = Except.error "db error")
    ∧ (∀ (ath : AthleteRow) (act : RawActivity) (row : ActivityRow)
        (rest : List RawActivity) (table : List ActivityRow),
      processAthleteAct cfg ath act = some row → fails row = true →
      runAthleteActsLoop cfg ath fails (act :: rest) table
        = Except.error "db error") := by
  constructor
  · intro act row rest table hp hf
    simp [runClubLoop, hp, hf]
  · intro ath act row rest table hp hf
    simp [runAthleteActsLoop, hp, hf]

theorem perRecordFailure_aborts_witness :
    processClubAct cfgPass actFailing
      = some (clubRow actFailing "2026-03-05T10:00:00Z")
    ∧ failsOnMarked (clubRow actFailing "2026-03-05T10:00:00Z") = true
    ∧ runClubLoop cfgPass failsOnMarked [actFailing, actLater] []
        = Except.error "db error" :=
  ⟨rfl, rfl,
    (perRecordFailure_aborts cfgPass failsOnMarked).1 actFailing
      (clubRow actFailing "2026-03-05T10:00:00Z") [actLater] [] rfl rfl⟩

/-- C6 counterexample: the provider rejects the first athlete's token
refresh; there is no per-athlete `try`/`catch`, so the pass aborts before
the second athlete is fetched — even though, run alone, the second athlete
would have been fetched and its activity upserted. -/
theorem athleteTokenFailure_blocks_rest :
    runAthletesLoop cfgPass tokenFailsFirst fetchOne failsNever
        [athFirst, athSecond] [] = Except.error "http 401"
    ∧ runAthletesLoop cfgPass tokenFailsFirst fetchOne failsNever
        [athSecond] []
        = Except.ok [athleteActRow athSecond actWithId "2026-03-05T10:00:00Z"] :=
  ⟨rfl, rfl⟩

/-- C6 (amended): when refreshing or using one athlete's token fails with
a provider HTTP error, the error propagates out of the athletes loop:
the whole pass aborts and the remaining athletes are not fetched. -/
theorem tokenFailure_aborts_remaining (cfg : Config)
    (tokenOf : AthleteRow → Except String String)
    (fetchOf : String → List RawActivity) (fails : ActivityRow → Bool)
    (ath : AthleteRow) (rest : List AthleteRow) (table : List ActivityRow)
    (e : String) (h : tokenOf ath = Except.error e) :
    runAthletesLoop cfg tokenOf fetchOf fails (ath :: rest) table
      = Except.error e := by
  simp [runAthletesLoop, h]

theorem tokenFailure_aborts_remaining_witness :
    tokenFailsFirst athFirst = Except.error "http 401"
    ∧ runAthletesLoop cfgPass tokenFailsFirst fetchOne failsNever
        [athFirst] [] = Except.error "http 401" :=
  ⟨rfl,
    tokenFailure_aborts_remaining cfgPass tokenFailsFirst fetchOne failsNever
      athFirst [] [] "http 401" rfl⟩

/-- C9: for an activity carrying a real id, the derived dedup key depends
only on that id (and, in the athlete loop, the athlete id): any two
derivations that see the same id produce the identical key, whatever the
other fields are — so the key is deterministic and stable across repeated
fetches of the same underlying activity. -/
theorem uniqueKey_deterministic (i : String) :
    (∀ (aid₁ aid₂ : Option String) (d₁ d₂ : String) (q₁ q₂ : ℚ)
        (m₁ m₂ : Nat),
      clubUniqueKey aid₁ (some i) d₁ q₁ m₁
        = clubUniqueKey aid₂ (some i) d₂ q₂ m₂)
    ∧ (∀ (aid : String) (d₁ d₂ : String) (q₁ q₂ : ℚ) (m₁ m₂ : Nat),
      athleteUniqueKey aid (some i) d₁ q₁ m₁
        = athleteUniqueKey aid (some i) d₂ q₂ m₂) :=
  ⟨fun _ _ _ _ _ _ _ _ => rfl, fun _ _ _ _ _ _ _ => rfl⟩

theorem fetchLoop_spec (pageFn : Nat → List RawActivity) (perPage : Nat)
    (hb : ∀ p, (pageFn p).length ≤ perPage) :
    ∀ (fuel page : Nat),
      ∃ n, n ≤ fuel
        ∧ fetchLoop pageFn perPage page fuel
            = ((List.range' page n).map pageFn).flatten
        ∧ (∀ i, i + 1 < n → (pageFn (page + i)).length = perPage)
        ∧ (fetchLoop pageFn perPage page fuel).length ≤ perPage * fuel := by
  intro fuel
  induction fuel with
  | zero =>
      intro page
      exact ⟨0, Nat.le_refl 0, by simp [fetchLoop], fun i hi => by omega,
        by simp [fetchLoop]⟩
  | succ f ih =>
      intro page
      by_cases hshort : (pageFn page).length < perPage
      · refine ⟨1, by omega, ?_, fun i hi => by omega, ?_⟩
        · simp [fetchLoop, hshort, List.range'_succ]
        · simp only [fetchLoop, if_pos hshort]
          calc (pageFn page).length ≤ perPage := hb page
            _ ≤ perPage * (f + 1) := Nat.le_mul_of_pos_right perPage (Nat.succ_pos f)
      · have hfull : (pageFn page).length = perPage :=
          Nat.le_antisymm (hb page) (Nat.le_of_not_lt hshort)
        obtain ⟨n, hn, heq, hfulls, hlen⟩ := ih (page + 1)
        refine ⟨n + 1, by omega, ?_, ?_, ?_⟩
        · simp only [fetchLoop, if_neg hshort]
          rw [List.range'_succ, List.map_cons, List.flatten_cons, heq]
        · intro i hi
          cases i with
          | zero => simpa using hfull
          | succ j =>
              have hj := hfulls j (by omega)
              have harith : page + 1 + j = page + (j + 1) := by omega
              rw [harith] at hj
              exact hj
        · simp only [fetchLoop, if_neg hshort]
          rw [List.length_append, hfull]
          have hmul : perPage * (f + 1) = perPage + perPage * f := by ring
          omega

/-- C7: each feed fetcher requests pages in order from page 1,
accumulates every returned row, and stops at the first short page or the
page budget; provided the provider honors the page size, the result is
the concatenation of the fetched pages, every fetched page but the last
is full, and the result holds at most `perPage * maxPages` activities
(50 * 3 for the club feed, 200 * 5 for the athlete feed). -/
theorem pagination_spec (pageC pageA : Nat → List RawActivity)
    (hC : ∀ p, (pageC p).length ≤ 50) (hA : ∀ p, (pageA p).length ≤ 200) :
    (∃ n, n ≤ 3
      ∧ fetchClubActivities pageC = ((List.range' 1 n).map pageC).flatten
      ∧ (∀ i, i + 1 < n → (pageC (1 + i)).length = 50))
    ∧ (fetchClubActivities pageC).length ≤ 50 * 3
    ∧ (∃ n, n ≤ 5
      ∧ fetchAthleteActivities pageA = ((List.range' 1 n).map pageA).flatten
      ∧ (∀ i, i + 1 < n → (pageA (1 + i)).length = 200))
    ∧ (fetchAthleteActivities pageA).length ≤ 200 * 5 := by
  obtain ⟨n, hn, heq, hfull, hlen⟩ := fetchLoop_spec pageC 50 hC 3 1
  obtain ⟨m, hm, heq2, hfull2, hlen2⟩ := fetchLoop_spec pageA 200 hA 5 1
  exact ⟨⟨n, hn, heq, hfull⟩, hlen, ⟨m, hm, heq2, hfull2⟩, hlen2⟩

theorem pagination_spec_witness :
    (fetchClubActivities emptyPages).length ≤ 50 * 3
    ∧ (fetchAthleteActivities emptyPages).length ≤ 200 * 5 :=
  ⟨(pagination_spec emptyPages emptyPages (fun _ => by simp [emptyPages])
      (fun _ => by simp [emptyPages])).2.1,
    (pagination_spec emptyPages emptyPages (fun _ => by simp [emptyPages])
      (fun _ => by simp [emptyPages])).2.2.2⟩

/-- C8: for positive seconds and distance, `calcularPace` renders the
pace `s / km` (seconds per kilometer) as `Math.floor` of the minutes, a
colon, and the rounded remaining seconds zero-padded to two digits; in
particular 10 km in 3600 s renders as "6:00". -/
theorem calcularPace_spec :
    (∀ s km : ℚ, 0 < s → 0 < km →
      calcularPace s km
        = toString (⌊s / km / 60⌋ : Int) ++ ":"
          ++ pad2 ⌊s / km - 60 * ((⌊s / km / 60⌋ : Int) : ℚ) + (1 : ℚ) / 2⌋)
    ∧ calcularPace 3600 10 = "6:00" := by
  have hgen : ∀ s km : ℚ, 0 < s → 0 < km →
      calcularPace s km
        = toString (⌊s / km / 60⌋ : Int) ++ ":"
          ++ pad2 ⌊s / km - 60 * ((⌊s / km / 60⌋ : Int) : ℚ) + (1 : ℚ) / 2⌋ := by
    intro s km hs hk
    have hcond : ¬ (s = 0 ∨ km ≤ 0) := by
      push_neg
      exact ⟨hs.ne', hk⟩
    have htr : jsTrunc (s / km / 60) = ⌊s / km / 60⌋ := by
      unfold jsTrunc
      rw [if_pos]
      positivity
    have hmod : jsFmod (s / km) 60 = s / km - 60 * ((⌊s / km / 60⌋ : Int) : ℚ) := by
      unfold jsFmod
      rw [htr]
    unfold calcularPace
    rw [if_neg hcond]
    show toString (⌊s / km / 60⌋ : Int) ++ ":"
        ++ pad2 (jsRound (jsFmod (s / km) 60)) = _
    unfold jsRound
    rw [hmod]
  refine ⟨hgen, ?_⟩
  have h := hgen 3600 10 (by norm_num) (by norm_num)
  rw [h]
  have h1 : (⌊(3600 : ℚ) / 10 / 60⌋ : Int) = 6 := by norm_num
  rw [h1]
  have h2 : (⌊(3600 : ℚ) / 10 - 60 * ((6 : Int) : ℚ) + (1 : ℚ) / 2⌋ : Int) = 0 := by
    norm_num
  rw [h2]
  rfl

theorem calcularPace_spec_witness :
    (0 : ℚ) < 3600 ∧ (0 : ℚ) < 10
    ∧ calcularPace 3600 10
        = toString (⌊(3600 : ℚ) / 10 / 60⌋ : Int) ++ ":"
          ++ pad2 ⌊(3600 : ℚ) / 10
              - 60 * ((⌊(3600 : ℚ) / 10 / 60⌋ : Int) : ℚ) + (1 : ℚ) / 2⌋ :=
  ⟨by norm_num, by norm_num,
    calcularPace_spec.1 3600 10 (by norm_num) (by norm_num)⟩

end StravaBot
